import Mathlib

/-!
Verification of the master-integrations seeding script.

The script holds two static service lists (AWS and M365) and two static
membership sets (assets-enabled, data-discovery-enabled).  Its pure core
is `build_service_item`; `seed_services` iterates the concatenated lists
and writes each built record (or only logs it in dry-run mode), counting
processed / written / errors and tallying items by provider and category;
`verify_table` scans the table back with pagination inside one try/except.

The embedding makes the effects explicit:
  * the wall clock is a parameter (`now`, or `clock : Nat → String` with
    one reading per record);
  * the outcome of each storage write is an oracle `w : Nat → Bool`
    (`true` = the put succeeds, `false` = it raises);
  * the paginated scan is driven by the list of responses the storage
    returns to successive scan calls.
-/

namespace SeedMasterIntegrations

structure ServiceDef where
  service : String
  displayName : String
  category : String
  description : String
deriving DecidableEq

/-- Services with the Assets feature enabled (static set in the script). -/
def ASSETS_ENABLED_SERVICES : List String :=
  ["iam", "bedrock", "ec2", "lambda", "ecs", "eks",
   "entraid", "intune"]

/-- Services with Data Discovery enabled (static set in the script;
DocumentDB removed there because data scanning is not yet implemented). -/
def DATA_DISCOVERY_ENABLED_SERVICES : List String :=
  ["s3", "dynamodb", "ec2", "efs", "fsx", "neptune", "rds", "redshift",
   "sharepoint", "onedrive"]

set_option maxHeartbeats 1600000 in
/-- The static AWS service catalog, in source order. -/
def AWS_SERVICES : List ServiceDef := [
  -- Storage
  ⟨"s3", "S3 (Simple Storage Service)", "storage", "Object storage for data storage and retrieval"⟩,
  ⟨"efs", "EFS (Elastic File System)", "storage", "Fully managed elastic NFS file system"⟩,
  ⟨"fsx", "FSx", "storage", "Fully managed file systems (Windows, Lustre, ONTAP, OpenZFS)"⟩,
  ⟨"glacier", "S3 Glacier", "storage", "Low-cost archive storage"⟩,
  ⟨"backup", "AWS Backup", "storage", "Centralized backup service"⟩,
  ⟨"storagegateway", "Storage Gateway", "storage", "Hybrid cloud storage integration"⟩,
  ⟨"transfer", "Transfer Family", "storage", "SFTP, FTPS, and FTP transfers to S3"⟩,
  ⟨"dlm", "Data Lifecycle Manager", "storage", "Automated EBS snapshot and AMI management"⟩,
  ⟨"ecr", "ECR (Container Registry)", "storage", "Docker container image registry"⟩,
  -- Database
  ⟨"dynamodb", "DynamoDB", "database", "Fully managed NoSQL database"⟩,
  ⟨"rds", "RDS (Relational Database Service)", "database", "Managed relational databases"⟩,
  ⟨"documentdb", "DocumentDB", "database", "MongoDB-compatible document database"⟩,
  ⟨"neptune", "Neptune", "database", "Fully managed graph database"⟩,
  ⟨"redshift", "Redshift", "database", "Data warehouse service"⟩,
  ⟨"elasticache", "ElastiCache", "database", "In-memory caching (Redis, Memcached)"⟩,
  ⟨"memorydb", "MemoryDB", "database", "Redis-compatible in-memory database"⟩,
  ⟨"dax", "DAX (DynamoDB Accelerator)", "database", "In-memory cache for DynamoDB"⟩,
  ⟨"dms", "DMS (Database Migration Service)", "database", "Database migration and replication"⟩,
  -- Compute
  ⟨"ec2", "EC2 (Elastic Compute Cloud)", "compute", "Virtual servers in the cloud"⟩,
  ⟨"lambda", "Lambda", "compute", "Serverless compute service"⟩,
  ⟨"ecs", "ECS (Elastic Container Service)", "compute", "Docker container orchestration"⟩,
  ⟨"eks", "EKS (Elastic Kubernetes Service)", "compute", "Managed Kubernetes service"⟩,
  ⟨"elasticbeanstalk", "Elastic Beanstalk", "compute", "Application deployment platform"⟩,
  ⟨"apprunner", "App Runner", "compute", "Containerized web app deployment"⟩,
  ⟨"autoscaling", "Auto Scaling", "compute", "Automatic scaling for EC2"⟩,
  ⟨"emr", "EMR (Elastic MapReduce)", "compute", "Big data processing framework"⟩,
  ⟨"appstream", "AppStream 2.0", "compute", "Application streaming service"⟩,
  ⟨"workspaces", "WorkSpaces", "compute", "Virtual desktops in the cloud"⟩,
  -- Security
  ⟨"iam", "IAM (Identity and Access Management)", "security", "Access control and identity management"⟩,
  ⟨"guardduty", "GuardDuty", "security", "Intelligent threat detection"⟩,
  ⟨"securityhub", "Security Hub", "security", "Security and compliance center"⟩,
  ⟨"macie", "Macie", "security", "Sensitive data discovery"⟩,
  ⟨"inspector", "Inspector", "security", "Automated security assessment"⟩,
  ⟨"waf", "WAF (Web Application Firewall)", "security", "Web application firewall"⟩,
  ⟨"shield", "Shield", "security", "DDoS protection"⟩,
  ⟨"config", "AWS Config", "security", "Resource configuration tracking"⟩,
  ⟨"kms", "KMS (Key Management Service)", "security", "Encryption key management"⟩,
  ⟨"secretsmanager", "Secrets Manager", "security", "Secrets rotation and management"⟩,
  ⟨"accessanalyzer", "IAM Access Analyzer", "security", "Resource access analysis"⟩,
  ⟨"acm", "ACM (Certificate Manager)", "security", "SSL/TLS certificate management"⟩,
  ⟨"cognito", "Cognito", "security", "User authentication and authorization"⟩,
  ⟨"fms", "Firewall Manager", "security", "Central firewall rule management"⟩,
  ⟨"networkfirewall", "Network Firewall", "security", "Managed network firewall"⟩,
  -- Networking
  ⟨"vpc", "VPC (Virtual Private Cloud)", "networking", "Isolated cloud network"⟩,
  ⟨"elb", "ELB Classic", "networking", "Classic load balancer"⟩,
  ⟨"elbv2", "ELB v2 (ALB/NLB)", "networking", "Application and network load balancers"⟩,
  ⟨"route53", "Route 53", "networking", "DNS and domain management"⟩,
  ⟨"cloudfront", "CloudFront", "networking", "Content delivery network (CDN)"⟩,
  ⟨"directconnect", "Direct Connect", "networking", "Dedicated network connection"⟩,
  ⟨"globalaccelerator", "Global Accelerator", "networking", "Global network performance optimization"⟩,
  ⟨"apigatewayv2", "API Gateway v2", "networking", "HTTP and WebSocket APIs"⟩,
  ⟨"apigateway", "API Gateway", "networking", "REST API management"⟩,
  -- AI/ML
  ⟨"bedrock", "Bedrock", "ai_ml", "Foundation models for generative AI"⟩,
  ⟨"sagemaker", "SageMaker", "ai_ml", "Machine learning platform"⟩,
  ⟨"amazon_q", "Amazon Q", "ai_ml", "AI-powered assistant"⟩,
  -- Analytics
  ⟨"athena", "Athena", "analytics", "Interactive query service for S3"⟩,
  ⟨"glue", "Glue", "analytics", "ETL and data catalog service"⟩,
  ⟨"kinesis", "Kinesis Data Streams", "analytics", "Real-time data streaming"⟩,
  ⟨"firehose", "Kinesis Firehose", "analytics", "Data delivery to destinations"⟩,
  ⟨"opensearch", "OpenSearch", "analytics", "Search and analytics engine"⟩,
  ⟨"lakeformation", "Lake Formation", "analytics", "Data lake management"⟩,
  ⟨"msk", "MSK (Managed Streaming for Kafka)", "analytics", "Managed Apache Kafka"⟩,
  -- Integration/Messaging
  ⟨"sns", "SNS (Simple Notification Service)", "integration", "Pub/sub messaging"⟩,
  ⟨"sqs", "SQS (Simple Queue Service)", "integration", "Message queuing"⟩,
  ⟨"ses", "SES (Simple Email Service)", "integration", "Email sending and receiving"⟩,
  ⟨"eventbridge", "EventBridge", "integration", "Serverless event bus"⟩,
  ⟨"stepfunctions", "Step Functions", "integration", "Workflow orchestration"⟩,
  ⟨"mq", "Amazon MQ", "integration", "Managed message broker"⟩,
  ⟨"appsync", "AppSync", "integration", "Managed GraphQL service"⟩,
  ⟨"amplify", "Amplify", "integration", "Full-stack app development"⟩,
  ⟨"iot", "IoT Core", "integration", "IoT device connectivity"⟩,
  -- Management
  ⟨"cloudtrail", "CloudTrail", "management", "AWS API logging and auditing"⟩,
  ⟨"cloudwatch", "CloudWatch", "management", "Monitoring and observability"⟩,
  ⟨"cloudformation", "CloudFormation", "management", "Infrastructure as code"⟩,
  ⟨"ssm", "Systems Manager", "management", "Operations management"⟩,
  ⟨"organizations", "Organizations", "management", "Multi-account management"⟩,
  ⟨"ram", "RAM (Resource Access Manager)", "management", "Cross-account resource sharing"⟩,
  ⟨"servicecatalog", "Service Catalog", "management", "IT service catalog"⟩,
  ⟨"directoryservice", "Directory Service", "management", "Managed Active Directory"⟩,
  ⟨"drs", "DRS (Disaster Recovery Service)", "management", "Disaster recovery"⟩,
  ⟨"codebuild", "CodeBuild", "management", "Build service"⟩,
  ⟨"codepipeline", "CodePipeline", "management", "CI/CD pipelines"⟩,
  ⟨"codedeploy", "CodeDeploy", "management", "Deployment automation"⟩]

/-- The static Microsoft 365 service catalog, in source order. -/
def M365_SERVICES : List ServiceDef := [
  ⟨"entraid", "Entra ID (Azure AD)", "identity", "Users, groups, and identity management"⟩,
  ⟨"intune", "Intune", "management", "Device management and compliance"⟩,
  ⟨"sharepoint", "SharePoint Online", "collaboration", "Document management and collaboration"⟩,
  ⟨"onedrive", "OneDrive for Business", "storage", "Personal cloud storage"⟩]

/-- Table naming follows the CDK convention: just the resource name,
no environment prefix, whatever environment is passed. -/
def get_table_name (environment : String) : String :=
  "master-integrations"

structure FeatureEntry where
  enabled : Bool
  description : String
deriving DecidableEq

structure FeaturesMap where
  cspm : FeatureEntry
  assets : FeatureEntry
  dataDiscovery : FeatureEntry
deriving DecidableEq

/-- One DynamoDB item as built by the script. -/
structure Item where
  pk : String
  provider : String
  service : String
  displayName : String
  description : String
  category : String
  cspmEnabled : String
  assetsEnabled : String
  dataDiscoveryEnabled : String
  features : FeaturesMap
  collectorName : String
  createdAt : String
  updatedAt : String
  updatedBy : String
deriving DecidableEq

/-- Builds one DynamoDB item; the wall-clock reading `now` is an explicit
argument (the script calls `datetime.now(timezone.utc).isoformat()` here).
The static lists all carry a description, so the `.get("description", "")`
default never fires and the field is read directly. -/
def build_service_item (service_config : ServiceDef) (provider : String)
    (now : String) : Item :=
  let service_name := service_config.service
  let cspm_enabled := true
  let assets_enabled := ASSETS_ENABLED_SERVICES.contains service_name
  let data_discovery_enabled := DATA_DISCOVERY_ENABLED_SERVICES.contains service_name
  { pk := provider ++ "#" ++ service_name
    provider := provider
    service := service_name
    displayName := service_config.displayName
    description := service_config.description
    category := service_config.category
    cspmEnabled := if cspm_enabled then "true" else "false"
    assetsEnabled := if assets_enabled then "true" else "false"
    dataDiscoveryEnabled := if data_discovery_enabled then "true" else "false"
    features :=
      { cspm := ⟨cspm_enabled, "Cloud Security Posture Management checks"⟩
        assets := ⟨assets_enabled, "Asset inventory tracking"⟩
        dataDiscovery := ⟨data_discovery_enabled, "Data discovery and classification"⟩ }
    collectorName := service_name
    createdAt := now
    updatedAt := now
    updatedBy := "system" }

/-! ## The seeding run (`seed_services`) -/

structure Stats where
  processed : Nat
  written : Nat
  errors : Nat
deriving DecidableEq

/-- Everything a run of `seed_services` accumulates: the `stats` dict it
returns, the `items_by_category` and `items_by_provider` tallies it prints
in its summary, and the trace of `put_item` calls it issues. -/
structure SeedResult where
  table : String
  stats : Stats
  items_by_category : String → Nat
  items_by_provider : String → Nat
  attempts : List Item

/-- Increment of a counting dict, `d.get(key, 0) + 1`, modelled pointwise. -/
def bump (tally : String → Nat) (key : String) : String → Nat :=
  fun s => if s = key then tally key + 1 else tally s

/-- The concatenated work list: AWS entries first, then M365, each paired
with its provider string. -/
def all_services : List (ServiceDef × String) :=
  AWS_SERVICES.map (fun service_config => (service_config, "aws"))
    ++ M365_SERVICES.map (fun service_config => (service_config, "m365"))

/-- One iteration of the seeding loop: count the record as processed,
build the item, tally category and provider; in dry-run mode count it as
written without touching storage, otherwise issue the put (traced in
`attempts`) and count it as written or as an error according to the
outcome `ok` of that put. -/
def seedStep (dry_run : Bool) (ok : Bool) (now : String)
    (st : SeedResult) (entry : ServiceDef × String) : SeedResult :=
  let item := build_service_item entry.1 entry.2 now
  let st := { st with
    stats := { st.stats with processed := st.stats.processed + 1 }
    items_by_category := bump st.items_by_category entry.1.category
    items_by_provider := bump st.items_by_provider entry.2 }
  if dry_run then
    { st with stats := { st.stats with written := st.stats.written + 1 } }
  else
    let st := { st with attempts := st.attempts ++ [item] }
    if ok then
      { st with stats := { st.stats with written := st.stats.written + 1 } }
    else
      { st with stats := { st.stats with errors := st.stats.errors + 1 } }

/-- The seeding loop over the remaining work list; `i` is the index of the
next record, used to query the write-outcome oracle `w` and the clock. -/
def seedLoop (dry_run : Bool) (w : Nat → Bool) (clock : Nat → String) :
    List (ServiceDef × String) → Nat → SeedResult → SeedResult
  | [], _, st => st
  | entry :: rest, i, st =>
      seedLoop dry_run w clock rest (i + 1) (seedStep dry_run (w i) (clock i) st entry)

/-- A whole run of `seed_services`: counters start at zero, the work list
is `all_services`. -/
def seed_run (environment : String) (dry_run : Bool)
    (w : Nat → Bool) (clock : Nat → String) : SeedResult :=
  seedLoop dry_run w clock all_services 0
    ⟨get_table_name environment, ⟨0, 0, 0⟩, fun _ => 0, fun _ => 0, []⟩

/-- The value `seed_services` returns: its `stats` dict. -/
def seed_services (environment : String) (dry_run : Bool)
    (w : Nat → Bool) (clock : Nat → String) : Stats :=
  (seed_run environment dry_run w clock).stats

/-- How many of the outcomes `w i, w (i+1), ..., w (i+n-1)` are `true`. -/
def countOk (w : Nat → Bool) : Nat → Nat → Nat
  | _, 0 => 0
  | i, n + 1 => (if w i then 1 else 0) + countOk w (i + 1) n

/-- How many of the outcomes `w i, ..., w (i+n-1)` are `false`. -/
def countFail (w : Nat → Bool) : Nat → Nat → Nat
  | _, 0 => 0
  | i, n + 1 => (if w i then 0 else 1) + countFail w (i + 1) n

/-! ## The verification pass (`verify_table`) -/

/-- An item as read back by the scan: a free-form dict, so every field the
verification code `get`s is optional. -/
structure ScanItem where
  pk : Option String
  provider : Option String
  service : Option String
  displayName : Option String
  category : Option String
  cspmEnabled : Option String
  assetsEnabled : Option String
  dataDiscoveryEnabled : Option String
deriving DecidableEq

/-- What the storage returns to one `table.scan(...)` call: a page of
items together with an optional `LastEvaluatedKey`, or a raised error. -/
inductive ScanResponse where
  | page (items : List ScanItem) (lastEvaluatedKey : Option String)
  | failure (msg : String)
deriving DecidableEq

/-- The scan-and-paginate prefix of `verify_table`: consume responses
while each page carries a `LastEvaluatedKey`; a raised error propagates
to the surrounding try/except. -/
def scanAll : List ScanResponse → List ScanItem → Except String (List ScanItem)
  | [], acc => Except.ok acc
  | ScanResponse.failure msg :: _, _ => Except.error msg
  | ScanResponse.page its none :: _, acc => Except.ok (acc ++ its)
  | ScanResponse.page its (some _) :: rest, acc => scanAll rest (acc ++ its)

/-- How many scan calls `verify_table` issues against a given response
sequence: it stops at the first error or at the first page without a
`LastEvaluatedKey`, and never re-issues (retries) a read. -/
def scansUsed : List ScanResponse → Nat
  | [] => 0
  | ScanResponse.failure _ :: _ => 1
  | ScanResponse.page _ none :: _ => 1
  | ScanResponse.page _ (some _) :: rest => 1 + scansUsed rest

def insertByPk (x : ScanItem) : List ScanItem → List ScanItem
  | [] => [x]
  | y :: ys =>
      if x.pk.getD "" ≤ y.pk.getD "" then x :: y :: ys else y :: insertByPk x ys

/-- Sorting by the pk key with empty-string default, as in
sorted(items, key=lambda x: x.get(pk, blank)). -/
def sortByPk : List ScanItem → List ScanItem
  | [] => []
  | x :: xs => insertByPk x (sortByPk xs)

/-- The counts and feature lists `verify_table` reports on success. -/
structure VerifyReport where
  totalItems : Nat
  by_provider : String → Nat
  by_category : String → Nat
  cspm_count : Nat
  assets_count : Nat
  data_discovery_count : Nat
  assets_list : List ScanItem
  data_discovery_list : List ScanItem

/-- The reporting body of `verify_table`, applied to the scanned items. -/
def summarize (items : List ScanItem) : VerifyReport :=
  { totalItems := items.length
    by_provider :=
      items.foldl (fun t item => bump t (item.provider.getD "unknown")) (fun _ => 0)
    by_category :=
      items.foldl (fun t item => bump t (item.category.getD "unknown")) (fun _ => 0)
    cspm_count := items.countP (fun item => item.cspmEnabled = some "true")
    assets_count := items.countP (fun item => item.assetsEnabled = some "true")
    data_discovery_count :=
      items.countP (fun item => item.dataDiscoveryEnabled = some "true")
    assets_list :=
      (sortByPk items).filter (fun item => item.assetsEnabled = some "true")
    data_discovery_list :=
      (sortByPk items).filter (fun item => item.dataDiscoveryEnabled = some "true") }

/-- The outcome of a verification pass: either the printed report, or the
pass was aborted by the except-branch, which only prints the error. -/
inductive VerifyOutcome where
  | report (r : VerifyReport)
  | aborted (msg : String)

/-- The function `verify_table`, driven by the storage responses.  The whole
read-and-report body sits in one try/except, so a read failure aborts the
pass with no report, and the function itself raises nothing. -/
def verify_table (responses : List ScanResponse) : VerifyOutcome :=
  match scanAll responses [] with
  | Except.error msg => VerifyOutcome.aborted msg
  | Except.ok items => VerifyOutcome.report (summarize items)

/-! ## Helper lemmas -/

theorem bump_apply (t : String → Nat) (k s : String) :
    bump t k s = t s + (if k = s then 1 else 0) := by
  by_cases h : s = k
  · subst h
    simp [bump]
  · have h2 : ¬(k = s) := fun hh => h hh.symm
    simp [bump, h, h2]

theorem seedStep_processed (d ok : Bool) (now : String) (st : SeedResult)
    (e : ServiceDef × String) :
    (seedStep d ok now st e).stats.processed = st.stats.processed + 1 := by
  cases d <;> cases ok <;> simp [seedStep]

theorem seedStep_written_dry (ok : Bool) (now : String) (st : SeedResult)
    (e : ServiceDef × String) :
    (seedStep true ok now st e).stats.written = st.stats.written + 1 := by
  cases ok <;> simp [seedStep]

theorem seedStep_errors_dry (ok : Bool) (now : String) (st : SeedResult)
    (e : ServiceDef × String) :
    (seedStep true ok now st e).stats.errors = st.stats.errors := by
  cases ok <;> simp [seedStep]

theorem seedStep_attempts_dry (ok : Bool) (now : String) (st : SeedResult)
    (e : ServiceDef × String) :
    (seedStep true ok now st e).attempts = st.attempts := by
  cases ok <;> simp [seedStep]

theorem seedStep_written_real (ok : Bool) (now : String) (st : SeedResult)
    (e : ServiceDef × String) :
    (seedStep false ok now st e).stats.written
      = st.stats.written + (if ok then 1 else 0) := by
  cases ok <;> simp [seedStep]

theorem seedStep_errors_real (ok : Bool) (now : String) (st : SeedResult)
    (e : ServiceDef × String) :
    (seedStep false ok now st e).stats.errors
      = st.stats.errors + (if ok then 0 else 1) := by
  cases ok <;> simp [seedStep]

theorem seedStep_attempts_real (ok : Bool) (now : String) (st : SeedResult)
    (e : ServiceDef × String) :
    (seedStep false ok now st e).attempts
      = st.attempts ++ [build_service_item e.1 e.2 now] := by
  cases ok <;> simp [seedStep]

theorem seedStep_provider (d ok : Bool) (now : String) (st : SeedResult)
    (e : ServiceDef × String) (p : String) :
    (seedStep d ok now st e).items_by_provider p
      = st.items_by_provider p + (if e.2 = p then 1 else 0) := by
  cases d <;> cases ok <;> simp [seedStep, bump_apply]

theorem seedStep_category (d ok : Bool) (now : String) (st : SeedResult)
    (e : ServiceDef × String) (c : String) :
    (seedStep d ok now st e).items_by_category c
      = st.items_by_category c + (if e.1.category = c then 1 else 0) := by
  cases d <;> cases ok <;> simp [seedStep, bump_apply]

theorem seedLoop_processed (d : Bool) (w : Nat → Bool) (clock : Nat → String)
    (l : List (ServiceDef × String)) :
    ∀ (i : Nat) (st : SeedResult),
      (seedLoop d w clock l i st).stats.processed
        = st.stats.processed + l.length := by
  induction l with
  | nil => intro i st; rfl
  | cons e rest ih =>
      intro i st
      rw [seedLoop, ih, seedStep_processed]
      simp
      omega

theorem seedLoop_dry (w : Nat → Bool) (clock : Nat → String)
    (l : List (ServiceDef × String)) :
    ∀ (i : Nat) (st : SeedResult),
      (seedLoop true w clock l i st).stats.written = st.stats.written + l.length ∧
      (seedLoop true w clock l i st).stats.errors = st.stats.errors ∧
      (seedLoop true w clock l i st).attempts = st.attempts := by
  induction l with
  | nil => intro i st; exact ⟨rfl, rfl, rfl⟩
  | cons e rest ih =>
      intro i st
      rw [seedLoop]
      obtain ⟨h1, h2, h3⟩ := ih (i + 1) (seedStep true (w i) (clock i) st e)
      refine ⟨?_, ?_, ?_⟩
      · rw [h1, seedStep_written_dry]
        simp
        omega
      · rw [h2, seedStep_errors_dry]
      · rw [h3, seedStep_attempts_dry]

theorem seedLoop_real (w : Nat → Bool) (clock : Nat → String)
    (l : List (ServiceDef × String)) :
    ∀ (i : Nat) (st : SeedResult),
      (seedLoop false w clock l i st).stats.written
        = st.stats.written + countOk w i l.length ∧
      (seedLoop false w clock l i st).stats.errors
        = st.stats.errors + countFail w i l.length ∧
      (seedLoop false w clock l i st).attempts.length
        = st.attempts.length + l.length := by
  induction l with
  | nil => intro i st; exact ⟨rfl, rfl, rfl⟩
  | cons e rest ih =>
      intro i st
      rw [seedLoop]
      obtain ⟨h1, h2, h3⟩ := ih (i + 1) (seedStep false (w i) (clock i) st e)
      refine ⟨?_, ?_, ?_⟩
      · rw [h1, seedStep_written_real]
        show _ = st.stats.written + countOk w i (rest.length + 1)
        cases hwi : w i <;> simp [countOk, hwi] <;> omega
      · rw [h2, seedStep_errors_real]
        show _ = st.stats.errors + countFail w i (rest.length + 1)
        cases hwi : w i <;> simp [countFail, hwi] <;> omega
      · rw [h3, seedStep_attempts_real]
        simp
        omega

theorem seedLoop_provider (d : Bool) (w : Nat → Bool) (clock : Nat → String)
    (l : List (ServiceDef × String)) (p : String) :
    ∀ (i : Nat) (st : SeedResult),
      (seedLoop d w clock l i st).items_by_provider p
        = st.items_by_provider p + l.countP (fun e => decide (e.2 = p)) := by
  induction l with
  | nil => intro i st; rfl
  | cons e rest ih =>
      intro i st
      rw [seedLoop, ih, seedStep_provider, List.countP_cons]
      by_cases hc : e.2 = p <;> simp [hc] <;> omega

theorem seedLoop_category (d : Bool) (w : Nat → Bool) (clock : Nat → String)
    (l : List (ServiceDef × String)) (c : String) :
    ∀ (i : Nat) (st : SeedResult),
      (seedLoop d w clock l i st).items_by_category c
        = st.items_by_category c + l.countP (fun e => decide (e.1.category = c)) := by
  induction l with
  | nil => intro i st; rfl
  | cons e rest ih =>
      intro i st
      rw [seedLoop, ih, seedStep_category, List.countP_cons]
      by_cases hc : e.1.category = c <;> simp [hc] <;> omega

theorem countOk_all_true (w : Nat → Bool) (h : ∀ j, w j = true) :
    ∀ (n i : Nat), countOk w i n = n := by
  intro n
  induction n with
  | zero => intro i; rfl
  | succ m ih => intro i; simp [countOk, h i, ih (i + 1)]; omega

theorem countOk_add_countFail (w : Nat → Bool) :
    ∀ (n i : Nat), countOk w i n + countFail w i n = n := by
  intro n
  induction n with
  | zero => intro i; rfl
  | succ m ih =>
      intro i
      have := ih (i + 1)
      cases hwi : w i <;> simp [countOk, countFail, hwi] <;> omega

theorem scanAll_failure (msg : String) (rest : List ScanResponse)
    (pre : List (List ScanItem × String)) :
    ∀ (acc : List ScanItem),
      scanAll (pre.map (fun q => ScanResponse.page q.1 (some q.2))
          ++ ScanResponse.failure msg :: rest) acc
        = Except.error msg := by
  induction pre with
  | nil => intro acc; rfl
  | cons q qs ih =>
      intro acc
      simp only [List.map_cons, List.cons_append]
      exact ih (acc ++ q.1)

theorem scansUsed_failure (msg : String) (rest : List ScanResponse)
    (pre : List (List ScanItem × String)) :
    scansUsed (pre.map (fun q => ScanResponse.page q.1 (some q.2))
        ++ ScanResponse.failure msg :: rest) = pre.length + 1 := by
  induction pre with
  | nil => rfl
  | cons q qs ih =>
      simp only [List.map_cons, List.cons_append, List.length_cons]
      rw [scansUsed, ih]
      omega

/-! ## Claim theorems -/

/-- C1. For every service definition in either static list, the built
record has `cspmEnabled = "true"`, `assetsEnabled = "true"` iff the
service name is in the static assets-enabled set, and
`dataDiscoveryEnabled = "true"` iff the service name is in the static
data-discovery-enabled set. -/
theorem claim_C1_flag_laws (e : ServiceDef × String)
    (he : e ∈ all_services) (now : String) :
    (build_service_item e.1 e.2 now).cspmEnabled = "true" ∧
    ((build_service_item e.1 e.2 now).assetsEnabled = "true" ↔
      e.1.service ∈ ASSETS_ENABLED_SERVICES) ∧
    ((build_service_item e.1 e.2 now).dataDiscoveryEnabled = "true" ↔
      e.1.service ∈ DATA_DISCOVERY_ENABLED_SERVICES) := by
  refine ⟨rfl, ?_, ?_⟩
  · by_cases h : e.1.service ∈ ASSETS_ENABLED_SERVICES <;>
      simp [build_service_item, h]
  · by_cases h : e.1.service ∈ DATA_DISCOVERY_ENABLED_SERVICES <;>
      simp [build_service_item, h]

/-- Witness for C1 at the s3 entry of the AWS list. -/
theorem claim_C1_flag_laws_witness :
    ((⟨"s3", "S3 (Simple Storage Service)", "storage",
        "Object storage for data storage and retrieval"⟩, "aws") :
      ServiceDef × String) ∈ all_services ∧
    ((build_service_item
        ⟨"s3", "S3 (Simple Storage Service)", "storage",
          "Object storage for data storage and retrieval"⟩ "aws"
        "2025-01-01T00:00:00+00:00").cspmEnabled = "true" ∧
    ((build_service_item
        ⟨"s3", "S3 (Simple Storage Service)", "storage",
          "Object storage for data storage and retrieval"⟩ "aws"
        "2025-01-01T00:00:00+00:00").assetsEnabled = "true" ↔
      "s3" ∈ ASSETS_ENABLED_SERVICES) ∧
    ((build_service_item
        ⟨"s3", "S3 (Simple Storage Service)", "storage",
          "Object storage for data storage and retrieval"⟩ "aws"
        "2025-01-01T00:00:00+00:00").dataDiscoveryEnabled = "true" ↔
      "s3" ∈ DATA_DISCOVERY_ENABLED_SERVICES)) :=
  ⟨by decide,
    claim_C1_flag_laws
      (⟨"s3", "S3 (Simple Storage Service)", "storage",
        "Object storage for data storage and retrieval"⟩, "aws")
      (by decide) "2025-01-01T00:00:00+00:00"⟩

/-- C2. `build_service_item` is deterministic apart from its timestamp
fields: every field except `createdAt` and `updatedAt` is a pure function
of (definition, provider, static sets), and `createdAt` and `updatedAt`
both equal the invocation time, hence each other. -/
theorem claim_C2_build_deterministic (cfg : ServiceDef) (p n1 n2 : String) :
    (build_service_item cfg p n1).pk = (build_service_item cfg p n2).pk ∧
    (build_service_item cfg p n1).provider = (build_service_item cfg p n2).provider ∧
    (build_service_item cfg p n1).service = (build_service_item cfg p n2).service ∧
    (build_service_item cfg p n1).displayName = (build_service_item cfg p n2).displayName ∧
    (build_service_item cfg p n1).description = (build_service_item cfg p n2).description ∧
    (build_service_item cfg p n1).category = (build_service_item cfg p n2).category ∧
    (build_service_item cfg p n1).cspmEnabled = (build_service_item cfg p n2).cspmEnabled ∧
    (build_service_item cfg p n1).assetsEnabled = (build_service_item cfg p n2).assetsEnabled ∧
    (build_service_item cfg p n1).dataDiscoveryEnabled
      = (build_service_item cfg p n2).dataDiscoveryEnabled ∧
    (build_service_item cfg p n1).features = (build_service_item cfg p n2).features ∧
    (build_service_item cfg p n1).collectorName = (build_service_item cfg p n2).collectorName ∧
    (build_service_item cfg p n1).updatedBy = (build_service_item cfg p n2).updatedBy ∧
    (build_service_item cfg p n1).createdAt = n1 ∧
    (build_service_item cfg p n1).updatedAt = n1 ∧
    (build_service_item cfg p n1).createdAt = (build_service_item cfg p n1).updatedAt :=
  ⟨rfl, rfl, rfl, rfl, rfl, rfl, rfl, rfl, rfl, rfl, rfl, rfl, rfl, rfl, rfl⟩

/-- C3. Across the concatenation of both static lists (AWS entries with
provider "aws", M365 entries with provider "m365"), no two built records
share a (provider, service) pair, and no two share the composite key
`pk = provider # name`. -/
theorem claim_C3_record_keys_unique (now : String) :
    ((all_services.map (fun e => build_service_item e.1 e.2 now)).map
      (fun r => (r.provider, r.service))).Nodup ∧
    ((all_services.map (fun e => build_service_item e.1 e.2 now)).map
      (fun r => r.pk)).Nodup := by
  constructor
  · have h : (all_services.map (fun e => build_service_item e.1 e.2 now)).map
        (fun r => (r.provider, r.service))
        = all_services.map (fun e => (e.2, e.1.service)) := rfl
    rw [h]
    decide
  · have h : (all_services.map (fun e => build_service_item e.1 e.2 now)).map
        (fun r => r.pk)
        = all_services.map (fun e => e.2 ++ "#" ++ e.1.service) := rfl
    rw [h]
    decide

/-- C4. A dry run issues zero storage writes, and its processed and
written counts equal those of a real run over the same static lists
(a real run being one whose puts all succeed). -/
theorem claim_C4_simulate_no_writes (env env2 : String)
    (w w2 : Nat → Bool) (clock clock2 : Nat → String)
    (h : ∀ i, w2 i = true) :
    (seed_run env true w clock).attempts = [] ∧
    (seed_run env true w clock).stats.processed
      = (seed_run env2 false w2 clock2).stats.processed ∧
    (seed_run env true w clock).stats.written
      = (seed_run env2 false w2 clock2).stats.written := by
  unfold seed_run
  refine ⟨(seedLoop_dry w clock all_services 0 _).2.2, ?_, ?_⟩
  · rw [seedLoop_processed, seedLoop_processed]
  · rw [(seedLoop_dry w clock all_services 0 _).1,
      (seedLoop_real w2 clock2 all_services 0 _).1,
      countOk_all_true w2 h]

/-- Witness for C4: all-succeeding write oracle. -/
theorem claim_C4_simulate_no_writes_witness :
    (seed_run "dev" true (fun _ => true) (fun _ => "t")).attempts = [] ∧
    (seed_run "dev" true (fun _ => true) (fun _ => "t")).stats.processed
      = (seed_run "dev" false (fun _ => true) (fun _ => "t")).stats.processed ∧
    (seed_run "dev" true (fun _ => true) (fun _ => "t")).stats.written
      = (seed_run "dev" false (fun _ => true) (fun _ => "t")).stats.written :=
  claim_C4_simulate_no_writes "dev" "dev" (fun _ => true) (fun _ => true)
    (fun _ => "t") (fun _ => "t") (fun _ => rfl)

/-- C5. In a real (non-dry) run, for every sequence of per-record write
outcomes: every one of the 87 records is processed and has its write
attempted, the written count is the number of successful puts, and the
error count is the number of failed puts — so one failed write adds
exactly one error, adds nothing to written, and stops nothing.  The step
conjuncts state the per-record effect of a failed put directly. -/
theorem claim_C5_write_failure_isolated (env : String)
    (w : Nat → Bool) (clock : Nat → String) :
    (seed_run env false w clock).stats.processed = 87 ∧
    (seed_run env false w clock).attempts.length = 87 ∧
    (seed_run env false w clock).stats.written = countOk w 0 87 ∧
    (seed_run env false w clock).stats.errors = countFail w 0 87 ∧
    (∀ (now : String) (st : SeedResult) (e : ServiceDef × String),
      (seedStep false false now st e).stats.errors = st.stats.errors + 1 ∧
      (seedStep false false now st e).stats.written = st.stats.written ∧
      (seedStep false false now st e).stats.processed = st.stats.processed + 1) := by
  have hlen : all_services.length = 87 := by decide
  unfold seed_run
  refine ⟨?_, ?_, ?_, ?_, ?_⟩
  · rw [seedLoop_processed, hlen]
  · rw [(seedLoop_real w clock all_services 0 _).2.2, hlen]; simp
  · rw [(seedLoop_real w clock all_services 0 _).1, hlen]; simp
  · rw [(seedLoop_real w clock all_services 0 _).2.1, hlen]; simp
  · intro now st e
    exact ⟨by rw [seedStep_errors_real]; rfl,
      by rw [seedStep_written_real]; rfl,
      seedStep_processed false false now st e⟩

/-- C6. If any storage read of the verification pass fails — the initial
scan (`pre = []`) or any paginated continuation (`pre` lists the pages
already returned, each with a `LastEvaluatedKey`) — the pass is aborted
with the failure reported and no report of counts or feature lists, and
exactly the scans up to and including the failing one were issued, so the
failed read is never retried; `verify_table` returns a `VerifyOutcome`
rather than propagating the exception. -/
theorem claim_C6_read_failure_aborts (pre : List (List ScanItem × String))
    (msg : String) (rest : List ScanResponse) :
    verify_table (pre.map (fun q => ScanResponse.page q.1 (some q.2))
        ++ ScanResponse.failure msg :: rest)
      = VerifyOutcome.aborted msg ∧
    scansUsed (pre.map (fun q => ScanResponse.page q.1 (some q.2))
        ++ ScanResponse.failure msg :: rest)
      = pre.length + 1 := by
  constructor
  · unfold verify_table
    rw [scanAll_failure]
  · exact scansUsed_failure msg rest pre

/-- C7. A run of `seed_services` returns the summary counts processed,
written and errors (its `stats` dict), and its summary tallies items
grouped by provider and by category: for every provider and category the
tally equals the number of processed entries of the concatenated static
lists with that provider resp. that category. -/
theorem claim_C7_summary_counts_grouped (env : String) (dry : Bool)
    (w : Nat → Bool) (clock : Nat → String) :
    seed_services env dry w clock = (seed_run env dry w clock).stats ∧
    (seed_run env dry w clock).stats.processed = all_services.length ∧
    (∀ p, (seed_run env dry w clock).items_by_provider p
      = all_services.countP (fun e => decide (e.2 = p))) ∧
    (∀ c, (seed_run env dry w clock).items_by_category c
      = all_services.countP (fun e => decide (e.1.category = c))) := by
  refine ⟨rfl, ?_, ?_, ?_⟩
  · unfold seed_run
    rw [seedLoop_processed]
    simp
  · intro p
    unfold seed_run
    rw [seedLoop_provider]
    simp
  · intro c
    unfold seed_run
    rw [seedLoop_category]
    simp

/-- C8. The storage table name is a fixed literal: for every environment
argument, in particular each of the CLI choices dev, staging and prod,
`get_table_name` returns the same constant string. -/
theorem claim_C8_table_name_constant (environment : String) :
    get_table_name environment = "master-integrations" ∧
    get_table_name "dev" = get_table_name environment ∧
    get_table_name "staging" = get_table_name environment ∧
    get_table_name "prod" = get_table_name environment :=
  ⟨rfl, rfl, rfl, rfl⟩

/-- C9. Accounting invariant: for every run — any dry-run flag and any
sequence of per-record write outcomes — processed = written + errors,
and in dry-run (simulate) mode the error count is zero. -/
theorem claim_C9_accounting (env : String) (dry : Bool)
    (w : Nat → Bool) (clock : Nat → String) :
    (seed_run env dry w clock).stats.processed
      = (seed_run env dry w clock).stats.written
        + (seed_run env dry w clock).stats.errors ∧
    (seed_run env true w clock).stats.errors = 0 := by
  constructor
  · unfold seed_run
    cases dry
    · rw [seedLoop_processed,
        (seedLoop_real w clock all_services 0 _).1,
        (seedLoop_real w clock all_services 0 _).2.1]
      have := countOk_add_countFail w all_services.length 0
      simp
      omega
    · rw [seedLoop_processed,
        (seedLoop_dry w clock all_services 0 _).1,
        (seedLoop_dry w clock all_services 0 _).2.1]
      simp
  · unfold seed_run
    rw [(seedLoop_dry w clock all_services 0 _).2.1]

/-- C10. Every run processes exactly the concatenation of the two static
lists, AWS entries first in list order then M365 entries in list order,
so the processed count always equals 83 + 4 = 87. -/
theorem claim_C10_processes_both_lists (env : String) (dry : Bool)
    (w : Nat → Bool) (clock : Nat → String) :
    all_services
      = AWS_SERVICES.map (fun service_config => (service_config, "aws"))
        ++ M365_SERVICES.map (fun service_config => (service_config, "m365")) ∧
    AWS_SERVICES.length = 83 ∧
    M365_SERVICES.length = 4 ∧
    all_services.length = 87 ∧
    (seed_run env dry w clock).stats.processed = 87 := by
  refine ⟨rfl, by decide, by decide, by decide, ?_⟩
  unfold seed_run
  rw [seedLoop_processed]
  simp [show all_services.length = 87 from by decide]

end SeedMasterIntegrations
